import Mathlib

/-!
Shallow embedding of the traffic_optimizer backend (Route Optimization Engine).

The repository contains three backend variants:
* variant A, backend/src/index.js lines 1-600: TomTom providers, the primary
  backend (classes CacheService, TomTomRoutingService, TomTomTransitService,
  TomTomTrafficService, RouteOptimizer);
* variant B, backend/src/index.js lines 600-1293: TomTom providers plus
  UrbanDensityAnalyzer (RouteOptimizer.calculateBaseScore and a score re-sort);
* variant C, src/unnamed/part_003: OpenRouteService / Overpass providers
  (classes OpenRouteService, PublicTransportService, UrbanDensityService,
  RouteOptimizer.calculateRealScore).

Conventions of the embedding:
* JS numbers are modelled as rationals; JS Math.round as jsRound below.
* Every external provider call (axios request, redis, the regex engine) is an
  oracle passed in as a function argument; a JS method that can throw is
  modelled with Option or Except, where none / error is the thrown case.
* Array.prototype.sort with a numeric comparator is modelled as the stable
  List.insertionSort with the corresponding total relation, since ES2019
  guarantees a stable sort.
* French log and error messages are transliterated to plain ASCII.
-/

namespace TrafficOptimizer

/-- JS Math.round: round half toward positive infinity. -/
def jsRound (x : ℚ) : ℤ := ⌊x + 1/2⌋

/-- The JS idiom Math.round(x * 10) / 10 (round to one decimal place). -/
def roundTenth (x : ℚ) : ℚ := (jsRound (x * 10) : ℚ) / 10

/-- Configuration of variant A (backend/src/index.js lines 25-33):
maxWalkingDistance 800, transferPenalty 180. -/
def ttConfig.maxWalkingDistance : ℚ := 800

def ttConfig.transferPenalty : ℚ := 180

/-- Configuration of variant C (part_003 lines 24-34):
maxWalkingDistance 800, transferPenalty 300. -/
def orsConfig.maxWalkingDistance : ℚ := 800

def orsConfig.transferPenalty : ℚ := 300

/-- A transit stop as consumed by the optimizers: the identity and coordinate
fields plus the served-route identifiers. Fields of the JS object that no
claim touches (type, operator, distance, address) are omitted. -/
structure Stop where
  id : String
  lat : ℚ
  lon : ℚ
  name : String
  routes : List String
  deriving Repr, DecidableEq

/-- Result of a walking-leg request (getWalkingRoute): coordinates, distance
in meters, duration in seconds. -/
structure WalkRoute where
  coordinates : List (ℚ × ℚ)
  distance : ℚ
  duration : ℚ
  deriving Repr, DecidableEq

/-- Result of TomTomRoutingService.getRoute: includes trafficDelay. -/
structure TomTomRouteData where
  coordinates : List (ℚ × ℚ)
  distance : ℚ
  duration : ℚ
  trafficDelay : ℚ
  deriving Repr, DecidableEq

/-- Result of OpenRouteService.getRoute (part_003): no traffic delay field. -/
structure OrsRouteData where
  coordinates : List (ℚ × ℚ)
  distance : ℚ
  duration : ℚ
  deriving Repr, DecidableEq

/-- An accessible stop of variant C (part_003 lines 286-292): the spread stop
plus the raw walking leg data, unrounded. -/
structure AccessibleStop extends Stop where
  walkingDistance : ℚ
  walkingDuration : ℚ
  walkingRoute : List (ℚ × ℚ)
  accessible : Bool
  deriving Repr, DecidableEq

/-- An accessible stop of variant A (backend/src/index.js lines 303-309):
walking distance and duration are stored via Math.round. -/
structure AccessibleStopTT extends Stop where
  walkingDistance : ℤ
  walkingDuration : ℤ
  walkingRoute : List (ℚ × ℚ)
  accessible : Bool
  deriving Repr, DecidableEq

/-- TomTomTrafficService.getTrafficInfo result object. -/
structure TrafficInfo where
  currentSpeed : ℚ
  freeFlowSpeed : ℚ
  confidence : ℚ
  roadClosure : Bool
  deriving Repr, DecidableEq

/-- Urban density result of variant C (UrbanDensityService.calculateRealDensity,
part_003 lines 199-208); only the densityScore field is read by the scorer, the
counts and interpretation fields are omitted. -/
structure DensityInfo where
  densityScore : ℚ
  deriving Repr, DecidableEq

/-- Urban density result of variant B (UrbanDensityAnalyzer.analyzeZone); only
the zoneType field is read by adjustRouteScore. -/
structure DensityAnalysis where
  zoneType : String
  deriving Repr, DecidableEq

/-- A warning record pushed into the warnings accumulator. The message text of
warnings that embed a dynamic err.message is fixed to the static prefix. -/
structure Warning where
  wtype : String
  message : String
  deriving Repr, DecidableEq

/-! ### CacheService (identical in all variants)

The redis client is modelled by its observable behaviour: the isOpen flag and
the raw get / setEx operations, which may fail (Except.error, covering both a
thrown redis error and a JSON parse failure). -/

/-- The redis client as seen by CacheService. -/
structure RedisClient (V : Type) where
  isOpen : Bool
  rawGet : String → Except Unit (Option V)
  rawSetEx : String → ℚ → V → Except Unit Unit

/-- CacheService.get: returns null when the client is not open, catches any
error of the raw read and returns null. The Except codomain records whether
the method itself can raise to its caller. -/
def CacheService.get {V : Type} (client : RedisClient V) (key : String) :
    Except Unit (Option V) :=
  if !client.isOpen then Except.ok none
  else
    match client.rawGet key with
    | Except.ok v => Except.ok v
    | Except.error _ => Except.ok none

/-- CacheService.set: returns without effect when the client is not open and
swallows any error of the raw write. -/
def CacheService.set {V : Type} (client : RedisClient V) (key : String)
    (value : V) (ttl : ℚ) : Except Unit Unit :=
  if !client.isOpen then Except.ok ()
  else
    match client.rawSetEx key ttl value with
    | Except.ok _ => Except.ok ()
    | Except.error _ => Except.ok ()

/-- A redis client that is never open (cache disabled, backend/src/index.js
lines 58-61). -/
def disabledRedis (V : Type) : RedisClient V :=
  { isOpen := false
    rawGet := fun _ => Except.error ()
    rawSetEx := fun _ _ _ => Except.error () }

/-- TomTomRoutingService.getRoute, variant A lines 151-208, with the cache
explicit. The cache read happens before the try block, so an exception from it
would propagate (first branch); the provider call and the cache write sit
inside the try whose catch rethrows the fixed message. The cache key string
stands for the interpolated coordinate key. -/
def TomTomRoutingService.getRoute (cache : RedisClient TomTomRouteData)
    (provider : ℚ → ℚ → ℚ → ℚ → Except Unit TomTomRouteData)
    (oLat oLon dLat dLon : ℚ) : Except String TomTomRouteData :=
  let cacheKey := "tomtom:route"
  match CacheService.get cache cacheKey with
  | Except.error _ => Except.error "cache exception propagated"
  | Except.ok (some cached) => Except.ok cached
  | Except.ok none =>
    match provider oLat oLon dLat dLon with
    | Except.error _ => Except.error "Routing service unavailable"
    | Except.ok data =>
      match CacheService.set cache cacheKey data 1800 with
      | Except.ok _ => Except.ok data
      | Except.error _ => Except.error "Routing service unavailable"

/-! ### Accessibility filtering -/

/-- PublicTransportService.findAccessibleStops (part_003 lines 276-300).
For each stop a walking leg is requested; a failed request (none) drops the
stop with a logged warning; stops beyond maxWalkingDistance are excluded; the
survivors are sorted ascending by walking distance. -/
def PublicTransportService.findAccessibleStops
    (walk : ℚ → ℚ → ℚ → ℚ → Option WalkRoute)
    (originLat originLon : ℚ) (stops : List Stop) : List AccessibleStop :=
  let accessibleStops : List AccessibleStop := stops.filterMap fun stop =>
    match walk originLat originLon stop.lat stop.lon with
    | none => none
    | some walkingRoute =>
      if walkingRoute.distance ≤ orsConfig.maxWalkingDistance then
        some { toStop := stop
               walkingDistance := walkingRoute.distance
               walkingDuration := walkingRoute.duration
               walkingRoute := walkingRoute.coordinates
               accessible := true }
      else none
  List.insertionSort (fun a b => a.walkingDistance ≤ b.walkingDistance)
    accessibleStops

/-- TomTomTransitService.findAccessibleStops (variant A lines 293-318): same
shape, but the stored walking distance and duration go through Math.round
(the budget test uses the raw distance). -/
def TomTomTransitService.findAccessibleStops
    (walk : ℚ → ℚ → ℚ → ℚ → Option WalkRoute)
    (originLat originLon : ℚ) (stops : List Stop) : List AccessibleStopTT :=
  let accessibleStops : List AccessibleStopTT := stops.filterMap fun stop =>
    match walk originLat originLon stop.lat stop.lon with
    | none => none
    | some walkingRoute =>
      if walkingRoute.distance ≤ ttConfig.maxWalkingDistance then
        some { toStop := stop
               walkingDistance := jsRound walkingRoute.distance
               walkingDuration := jsRound walkingRoute.duration
               walkingRoute := walkingRoute.coordinates
               accessible := true }
      else none
  List.insertionSort (fun a b => a.walkingDistance ≤ b.walkingDistance)
    accessibleStops

/-! ### Stop discovery (variant A) -/

/-- A raw nearbySearch result item, with the optional fields the mapping at
variant A lines 246-255 reads. -/
structure RawStop where
  id : Option String
  lat : ℚ
  lon : ℚ
  poiName : Option String
  address : Option String
  deriving Repr, DecidableEq

/-- TomTomTransitService.extractRoutesFromStop (variant A lines 282-291).
matchTokens is the regex engine applied to the fixed route-token pattern; it
returns null (none) or the list of matches. When nothing is matched the fixed
list L1, L2 is substituted. -/
def TomTomTransitService.extractRoutesFromStop
    (matchTokens : String → Option (List String)) (stop : RawStop) :
    List String :=
  let routes : List String :=
    match stop.poiName with
    | some n => (matchTokens n).getD []
    | none => []
  if routes.length > 0 then routes else ["L1", "L2"]

/-- The stop-mapping step of TomTomTransitService.getTransitStopsNearby
(variant A lines 246-255): ids default to tomtom_idx, names fall back to the
address and then to a numbered placeholder, routes come from
extractRoutesFromStop. -/
def TomTomTransitService.mapStops
    (matchTokens : String → Option (List String)) (results : List RawStop) :
    List Stop :=
  results.enum.map fun p =>
    { id := p.2.id.getD ("tomtom_" ++ toString p.1)
      lat := p.2.lat
      lon := p.2.lon
      name := p.2.poiName.getD (p.2.address.getD ("Stop " ++ toString (p.1 + 1)))
      routes := TomTomTransitService.extractRoutesFromStop matchTokens p.2 }

/-! ### Candidate generation -/

/-- A route candidate of variant C (part_003 lines 410-427); all numeric
fields raw rationals, no traffic delay field. -/
structure OrsRouteCandidate where
  rtype : String
  routeId : String
  originStop : AccessibleStop
  destStop : AccessibleStop
  transitDistance : ℚ
  transitDuration : ℚ
  totalWalkingDistance : ℚ
  totalWalkingDuration : ℚ
  transfers : ℕ
  totalDuration : ℚ
  coordinates : List (ℚ × ℚ)
  dataSource : String
  deriving Repr, DecidableEq

/-- The candidate object pushed for one shared route id (part_003 lines
410-427). -/
def RouteOptimizer.mkDirectRoute (originStop destStop : AccessibleStop)
    (routeId : String) (transitRoute : OrsRouteData) : OrsRouteCandidate :=
  { rtype := "DIRECT"
    routeId := routeId
    originStop := originStop
    destStop := destStop
    transitDistance := transitRoute.distance
    transitDuration := transitRoute.duration
    totalWalkingDistance := originStop.walkingDistance + destStop.walkingDistance
    totalWalkingDuration := originStop.walkingDuration + destStop.walkingDuration
    transfers := 0
    totalDuration := transitRoute.duration + originStop.walkingDuration +
      destStop.walkingDuration
    coordinates := originStop.walkingRoute ++ transitRoute.coordinates ++
      destStop.walkingRoute
    dataSource := "real-data" }

/-- The warning pushed when a per-pair transit leg fails (part_003 lines
429-432); the dynamic err.message suffix is elided. -/
def routeCalculationFailedWarning : Warning :=
  { wtype := "ROUTE_CALCULATION_FAILED"
    message := "Could not calculate route between stops" }

/-- Step 5 of variant C RouteOptimizer.optimizeRoute (part_003 lines 392-437):
the first five accessible stops per side are cross-joined; for each pair the
intersection of served routes is computed, and one candidate per shared route
id is built from a driving-car transit leg. A failed leg produces a warning
instead and does not abort the remaining pairs. The nonempty guard on
commonRoutes in the source is subsumed by iterating over commonRoutes. -/
def RouteOptimizer.findCommonRouteCandidates
    (getRoute : ℚ → ℚ → ℚ → ℚ → Option OrsRouteData)
    (accessibleOriginStops accessibleDestStops : List AccessibleStop) :
    List OrsRouteCandidate × List Warning :=
  let candidates := (accessibleOriginStops.take 5).flatMap fun originStop =>
    (accessibleDestStops.take 5).flatMap fun destStop =>
      let commonRoutes := originStop.routes.filter fun r =>
        destStop.routes.contains r
      commonRoutes.filterMap fun routeId =>
        (getRoute originStop.lat originStop.lon destStop.lat
            destStop.lon).map fun transitRoute =>
          RouteOptimizer.mkDirectRoute originStop destStop routeId transitRoute
  let warnings := (accessibleOriginStops.take 5).flatMap fun originStop =>
    (accessibleDestStops.take 5).flatMap fun destStop =>
      let commonRoutes := originStop.routes.filter fun r =>
        destStop.routes.contains r
      commonRoutes.filterMap fun _ =>
        match getRoute originStop.lat originStop.lon destStop.lat
            destStop.lon with
        | some _ => none
        | none => some routeCalculationFailedWarning
  (candidates, warnings)

/-- A route candidate of variant A (backend/src/index.js lines 449-467);
numeric summary fields go through Math.round, hence integers. -/
structure TTRouteCandidate where
  rtype : String
  routeId : String
  originStop : AccessibleStopTT
  destStop : AccessibleStopTT
  transitDistance : ℤ
  transitDuration : ℤ
  trafficDelay : ℤ
  totalWalkingDistance : ℤ
  totalWalkingDuration : ℤ
  transfers : ℕ
  totalDuration : ℤ
  coordinates : List (ℚ × ℚ)
  dataSource : String
  deriving Repr, DecidableEq

/-- The candidate-building loop of variant A RouteOptimizer.optimizeRoute
(lines 430-472): the first five accessible stops per side are cross-joined
with no route matching at all; each pair whose car leg succeeds yields one
candidate with transfers 0, and routeId interpolates routes[0] of both stops
(JS renders an out-of-range index as the string undefined). A failed leg is
logged and skipped. -/
def RouteOptimizer.buildDirectRoutes
    (getRoute : ℚ → ℚ → ℚ → ℚ → Option TomTomRouteData)
    (accessibleOriginStops accessibleDestStops : List AccessibleStopTT) :
    List TTRouteCandidate :=
  (accessibleOriginStops.take 5).flatMap fun originStop =>
    (accessibleDestStops.take 5).filterMap fun destStop =>
      (getRoute originStop.lat originStop.lon destStop.lat
          destStop.lon).map fun transitRoute =>
        let totalWalkDuration :=
          originStop.walkingDuration + destStop.walkingDuration
        let totalDuration := transitRoute.duration + (totalWalkDuration : ℚ) +
          transitRoute.trafficDelay
        { rtype := "DIRECT"
          routeId := originStop.routes.headD "undefined" ++ "-" ++
            destStop.routes.headD "undefined"
          originStop := originStop
          destStop := destStop
          transitDistance := jsRound transitRoute.distance
          transitDuration := jsRound transitRoute.duration
          trafficDelay := jsRound transitRoute.trafficDelay
          totalWalkingDistance :=
            originStop.walkingDistance + destStop.walkingDistance
          totalWalkingDuration := totalWalkDuration
          transfers := 0
          totalDuration := jsRound totalDuration
          coordinates := originStop.walkingRoute ++ transitRoute.coordinates ++
            destStop.walkingRoute
          dataSource := "tomtom-real-data" }

/-! ### Scoring -/

/-- Variant C RouteOptimizer.calculateRealScore (part_003 lines 475-492):
100 minus 0.5 per minute of total duration, minus 1.5 per 100 m of walking,
minus 10 per transfer, plus 5 when the mean density score exceeds 70; rounded
to one decimal and clamped to the range 0 to 100. There is no traffic-delay
term. -/
def RouteOptimizer.calculateRealScore (route : OrsRouteCandidate)
    (originDensity destDensity : DensityInfo) : ℚ :=
  let score : ℚ := 100 - route.totalDuration / 60 * (1/2)
    - route.totalWalkingDistance / 100 * (3/2) - (route.transfers : ℚ) * 10
  let avgDensity := (originDensity.densityScore + destDensity.densityScore) / 2
  let score := if avgDensity > 70 then score + 5 else score
  max 0 (min 100 (roundTenth score))

/-- The JS test originTraffic?.confidence > 0.7 (false when the traffic info
is null). -/
def TrafficInfo.confidenceHigh : Option TrafficInfo → Prop
  | some t => t.confidence > 7/10
  | none => False

instance : DecidablePred TrafficInfo.confidenceHigh := fun t =>
  match t with
  | some _ => inferInstanceAs (Decidable (_ > _))
  | none => inferInstanceAs (Decidable False)

/-- Variant A RouteOptimizer.calculateScore (lines 509-520): duration, walking,
transfer and traffic-delay penalties, plus 3 per endpoint whose traffic
confidence exceeds 0.7; rounded to one decimal and clamped to 0..100. -/
def RouteOptimizer.calculateScore (route : TTRouteCandidate)
    (originTraffic destTraffic : Option TrafficInfo) : ℚ :=
  let score : ℚ := 100 - (route.totalDuration : ℚ) / 60 * (1/2)
    - (route.totalWalkingDistance : ℚ) / 100 * (3/2)
    - (route.transfers : ℚ) * 10 - (route.trafficDelay : ℚ) / 60 * 2
  let score := if TrafficInfo.confidenceHigh originTraffic then score + 3
    else score
  let score := if TrafficInfo.confidenceHigh destTraffic then score + 3
    else score
  max 0 (min 100 (roundTenth score))

/-- Variant B RouteOptimizer.calculateBaseScore (lines 1210-1224): same
penalties and confidence bonuses as calculateScore but no clamp, only the
one-decimal rounding. -/
def RouteOptimizer.calculateBaseScore (route : TTRouteCandidate)
    (originTraffic destTraffic : Option TrafficInfo) : ℚ :=
  let score : ℚ := 100 - (route.totalDuration : ℚ) / 60 * (1/2)
    - (route.totalWalkingDistance : ℚ) / 100 * (3/2)
    - (route.transfers : ℚ) * 10 - (route.trafficDelay : ℚ) / 60 * 2
  let score := if TrafficInfo.confidenceHigh originTraffic then score + 3
    else score
  let score := if TrafficInfo.confidenceHigh destTraffic then score + 3
    else score
  roundTenth score

/-- UrbanDensityAnalyzer.adjustRouteScore (variant B lines 881-896); the route
argument is unused in the source as well. -/
def UrbanDensityAnalyzer.adjustRouteScore (_route : TTRouteCandidate)
    (originDensity destDensity : DensityAnalysis) : ℚ :=
  let adjustment : ℚ := 0
  let adjustment := if originDensity.zoneType = "urban" then adjustment + 5
    else adjustment
  let adjustment := if destDensity.zoneType = "urban" then adjustment + 5
    else adjustment
  let adjustment := if originDensity.zoneType = "rural" then adjustment - 8
    else adjustment
  let adjustment := if destDensity.zoneType = "rural" then adjustment - 8
    else adjustment
  if originDensity.zoneType = destDensity.zoneType then adjustment + 3
  else adjustment

/-! ### Ranking -/

/-- A scored route of variant A. -/
structure ScoredRoute extends TTRouteCandidate where
  score : ℚ
  deriving Repr, DecidableEq

/-- The ranking tail of variant A optimizeRoute (lines 474-484): sort the
candidates ascending by totalDuration, attach scores, and return the first
five. There is no re-sort by score. -/
def RouteOptimizer.rankRoutes (routes : List TTRouteCandidate)
    (originTraffic destTraffic : Option TrafficInfo) : List ScoredRoute :=
  let sorted := List.insertionSort
    (fun a b => a.totalDuration ≤ b.totalDuration) routes
  let scoredRoutes := sorted.map fun route =>
    { toTTRouteCandidate := route
      score := RouteOptimizer.calculateScore route originTraffic destTraffic }
  scoredRoutes.take 5

/-- A scored route of variant B, carrying the density adjustment. -/
structure ScoredRouteB extends TTRouteCandidate where
  score : ℚ
  densityAdjustment : ℚ
  deriving Repr, DecidableEq

/-- The ranking tail of variant B optimizeRoute (lines 1159-1180): sort by
totalDuration ascending, score each route as the clamp of base score plus
density adjustment, re-sort descending by score (stable), return the first
five. -/
def RouteOptimizer.rankRoutesWithDensity (routes : List TTRouteCandidate)
    (originTraffic destTraffic : Option TrafficInfo)
    (originDensity destDensity : DensityAnalysis) : List ScoredRouteB :=
  let sorted := List.insertionSort
    (fun a b => a.totalDuration ≤ b.totalDuration) routes
  let scoredRoutes := sorted.map fun route =>
    let baseScore :=
      RouteOptimizer.calculateBaseScore route originTraffic destTraffic
    let densityAdjustment :=
      UrbanDensityAnalyzer.adjustRouteScore route originDensity destDensity
    { toTTRouteCandidate := route
      score := max 0 (min 100 (baseScore + densityAdjustment))
      densityAdjustment := densityAdjustment }
  let reSorted := List.insertionSort (fun a b => b.score ≤ a.score) scoredRoutes
  reSorted.take 5

/-! ### Variant A orchestrator -/

structure GeoPoint where
  lat : ℚ
  lon : ℚ
  deriving Repr, DecidableEq

/-- The enriched endpoint record of the variant A result (origin and
destination blocks, lines 485-496). -/
structure EndpointInfo where
  point : GeoPoint
  traffic : Option TrafficInfo
  nearbyStops : ℕ
  accessibleStops : ℕ
  deriving Repr, DecidableEq

/-- The metadata block of the variant A result (lines 498-505). -/
structure ResultMetadata where
  totalStopsFound : ℕ
  accessibleOriginStops : ℕ
  accessibleDestStops : ℕ
  routesCalculated : ℕ
  dataSource : String
  timestamp : String
  deriving Repr, DecidableEq

/-- The variant A optimization result (lines 483-506). -/
structure OptimizationResult where
  routes : List ScoredRoute
  origin : EndpointInfo
  destination : EndpointInfo
  warnings : List Warning
  metadata : ResultMetadata
  deriving Repr, DecidableEq

/-- The external providers variant A optimizeRoute consults, after their own
caching and error absorption: stop discovery never throws (its catch returns
an empty list), walking and car legs may fail per call, traffic info may be
null. -/
structure Providers where
  getTransitStopsNearby : ℚ → ℚ → ℚ → List Stop
  getWalkingRoute : ℚ → ℚ → ℚ → ℚ → Option WalkRoute
  getCarRoute : ℚ → ℚ → ℚ → ℚ → Option TomTomRouteData
  getTrafficInfo : ℚ → ℚ → Option TrafficInfo

/-- The accessibility warnings pushed at variant A lines 411-423: one per side
whose accessible list is empty, naming the side. -/
def RouteOptimizer.accessibilityWarnings
    (accessibleOriginStops accessibleDestStops : List AccessibleStopTT) :
    List Warning :=
  (if accessibleOriginStops.isEmpty then
    [{ wtype := "NO_ACCESSIBLE_STOPS_ORIGIN"
       message := "Tous les arrets origine depassent la distance de marche maximale." }]
  else []) ++
  (if accessibleDestStops.isEmpty then
    [{ wtype := "NO_ACCESSIBLE_STOPS_DEST"
       message := "Tous les arrets de destination depassent la distance de marche maximale." }]
  else [])

/-- Variant A RouteOptimizer.optimizeRoute (lines 363-507). Discovery at
radius 2000 escalates once to 5000 when empty; a still-empty side throws. The
first ten discovered stops per side are filtered for accessibility, warnings
are recorded for empty sides, traffic info is fetched, candidates are built,
ranked and truncated, and the result object is assembled with the current
timestamp. The source slices the scored list inside the result literal; here
the slice lives in rankRoutes. -/
def RouteOptimizer.optimizeRoute (p : Providers)
    (origin destination : GeoPoint) (timestamp : String) :
    Except String OptimizationResult :=
  let originStops1 := p.getTransitStopsNearby origin.lat origin.lon 2000
  let originStops := if originStops1.isEmpty then
    p.getTransitStopsNearby origin.lat origin.lon 5000 else originStops1
  if originStops.isEmpty then
    Except.error "Aucun arret de transport trouve pres de origine. Essayez une autre adresse."
  else
    let destStops1 :=
      p.getTransitStopsNearby destination.lat destination.lon 2000
    let destStops := if destStops1.isEmpty then
      p.getTransitStopsNearby destination.lat destination.lon 5000
    else destStops1
    if destStops.isEmpty then
      Except.error "Aucun arret de transport trouve pres de la destination. Essayez une autre adresse."
    else
      let accessibleOriginStops := TomTomTransitService.findAccessibleStops
        p.getWalkingRoute origin.lat origin.lon (originStops.take 10)
      let accessibleDestStops := TomTomTransitService.findAccessibleStops
        p.getWalkingRoute destination.lat destination.lon (destStops.take 10)
      let warnings := RouteOptimizer.accessibilityWarnings
        accessibleOriginStops accessibleDestStops
      let originTraffic := p.getTrafficInfo origin.lat origin.lon
      let destTraffic := p.getTrafficInfo destination.lat destination.lon
      let routes := RouteOptimizer.buildDirectRoutes p.getCarRoute
        accessibleOriginStops accessibleDestStops
      let scoredRoutes := RouteOptimizer.rankRoutes routes originTraffic
        destTraffic
      Except.ok
        { routes := scoredRoutes
          origin :=
            { point := origin
              traffic := originTraffic
              nearbyStops := originStops.length
              accessibleStops := accessibleOriginStops.length }
          destination :=
            { point := destination
              traffic := destTraffic
              nearbyStops := destStops.length
              accessibleStops := accessibleDestStops.length }
          warnings := warnings
          metadata :=
            { totalStopsFound := originStops.length + destStops.length
              accessibleOriginStops := accessibleOriginStops.length
              accessibleDestStops := accessibleDestStops.length
              routesCalculated := routes.length
              dataSource := "TomTom Real-Time Data"
              timestamp := timestamp } }

/-- Blank out the timestamp of a result, the only field the spec allows to
differ between two identical calls. -/
def eraseTimestamp (r : OptimizationResult) : OptimizationResult :=
  { r with metadata := { r.metadata with timestamp := "" } }

/-- eraseTimestamp lifted over the throw/return outcome. -/
def eraseTimestampE :
    Except String OptimizationResult → Except String OptimizationResult
  | Except.ok r => Except.ok (eraseTimestamp r)
  | Except.error e => Except.error e

/-- Modelled from the spec: the section 4.4 scoring contract as claim C2
states it, including the traffic-delay term and the mean-density bonus, with
the result clamped to 0..100 and then rounded to one decimal. Exists only to
be compared against the scorers translated from the source. -/
def specScoreC2 (totalDurationSeconds totalWalkingDistanceMeters : ℚ)
    (transferCount : ℕ) (trafficDelaySeconds : ℚ)
    (originDensityScore destDensityScore : ℚ) : ℚ :=
  let densityBonus : ℚ :=
    if (originDensityScore + destDensityScore) / 2 > 70 then 5 else 0
  let raw : ℚ := 100 - (1/2) * (totalDurationSeconds / 60)
    - (3/2) * (totalWalkingDistanceMeters / 100) - 10 * (transferCount : ℚ)
    - 2 * (trafficDelaySeconds / 60) + densityBonus
  roundTenth (max 0 (min 100 raw))

/-- The car-leg oracle the candidate loop sees when routing goes through the
cached adapter: a thrown adapter call is the caught (none) case of the
generator loop. -/
def cachedCarOracle (cache : RedisClient TomTomRouteData)
    (provider : ℚ → ℚ → ℚ → ℚ → Except Unit TomTomRouteData) :
    ℚ → ℚ → ℚ → ℚ → Option TomTomRouteData :=
  fun oLat oLon dLat dLon =>
    (TomTomRoutingService.getRoute cache provider oLat oLon dLat dLon).toOption

/-! ### Concrete fixtures used by counterexamples and witnesses -/

def stopA : Stop :=
  { id := "A", lat := 1, lon := 2, name := "Stop A", routes := ["5"] }

def stopB : Stop :=
  { id := "B", lat := 3, lon := 4, name := "Stop B", routes := ["9"] }

def stopC : Stop :=
  { id := "C", lat := 5, lon := 6, name := "Stop C", routes := ["5"] }

def accA : AccessibleStop :=
  { toStop := stopA, walkingDistance := 200, walkingDuration := 150
    walkingRoute := [], accessible := true }

def accB : AccessibleStop :=
  { toStop := stopB, walkingDistance := 150, walkingDuration := 100
    walkingRoute := [], accessible := true }

def accC : AccessibleStop :=
  { toStop := stopC, walkingDistance := 150, walkingDuration := 100
    walkingRoute := [], accessible := true }

def accTTA : AccessibleStopTT :=
  { toStop := stopA, walkingDistance := 200, walkingDuration := 150
    walkingRoute := [], accessible := true }

def accTTB : AccessibleStopTT :=
  { toStop := stopB, walkingDistance := 150, walkingDuration := 100
    walkingRoute := [], accessible := true }

def accTTC : AccessibleStopTT :=
  { toStop := stopC, walkingDistance := 150, walkingDuration := 100
    walkingRoute := [], accessible := true }

def orsLeg : OrsRouteData := { coordinates := [], distance := 3000, duration := 600 }

def orsLegOracle : ℚ → ℚ → ℚ → ℚ → Option OrsRouteData := fun _ _ _ _ => some orsLeg

def ttLeg : TomTomRouteData :=
  { coordinates := [], distance := 3000, duration := 600, trafficDelay := 0 }

def ttLegOracle : ℚ → ℚ → ℚ → ℚ → Option TomTomRouteData := fun _ _ _ _ => some ttLeg

/-- A walking oracle whose every leg is beyond the 800 m budget. -/
def farWalkOracle : ℚ → ℚ → ℚ → ℚ → Option WalkRoute :=
  fun _ _ _ _ => some { coordinates := [], distance := 1000, duration := 700 }

/-- A walking oracle whose every leg is within the 800 m budget. -/
def nearWalkOracle : ℚ → ℚ → ℚ → ℚ → Option WalkRoute :=
  fun _ _ _ _ => some { coordinates := [], distance := 300, duration := 214 }

/-- A walking oracle that fails (throws) exactly for destination latitude 3 --
the latitude of stopB -- and otherwise yields a 300 m leg. -/
def mixedWalkOracle : ℚ → ℚ → ℚ → ℚ → Option WalkRoute :=
  fun _ _ dLat _ =>
    if dLat = 3 then none
    else some { coordinates := [], distance := 300, duration := 214 }

/-- A candidate whose shorter duration comes with a long walk: 600 s duration,
1000 m walking, score 80. -/
def cexRouteSlow : TTRouteCandidate :=
  { rtype := "DIRECT", routeId := "5-9", originStop := accTTA
    destStop := accTTB, transitDistance := 3000, transitDuration := 600
    trafficDelay := 0, totalWalkingDistance := 1000
    totalWalkingDuration := 250, transfers := 0, totalDuration := 600
    coordinates := [], dataSource := "tomtom-real-data" }

/-- A candidate with a longer duration but no walking: 700 s, score 94.2. -/
def cexRouteFast : TTRouteCandidate :=
  { cexRouteSlow with totalWalkingDistance := 0, totalDuration := 700 }

/-- A candidate with 1200 s duration and nothing else: variant A scores it 90
while the spec formula with a density bonus yields 95. -/
def cexRouteLong : TTRouteCandidate :=
  { cexRouteSlow with totalWalkingDistance := 0, totalDuration := 1200 }

/-- A redis client that is open but whose every raw operation throws. -/
def failingRedis : RedisClient TomTomRouteData :=
  { isOpen := true
    rawGet := fun _ => Except.error ()
    rawSetEx := fun _ _ _ => Except.error () }

def constProvider : ℚ → ℚ → ℚ → ℚ → Except Unit TomTomRouteData :=
  fun _ _ _ _ => Except.ok ttLeg

/-- A regex oracle that never matches. -/
def noTokenMatcher : String → Option (List String) := fun _ => none

def rawStopX : RawStop :=
  { id := none, lat := 1, lon := 2, poiName := some "Gare Centrale"
    address := none }

/-- The accessible stop produced from stopA by a 300 m / 214 s walking leg. -/
def nearAccA : AccessibleStop :=
  { toStop := stopA, walkingDistance := 300, walkingDuration := 214
    walkingRoute := [], accessible := true }

/-- The candidate the TomTom generator builds from the pair (accTTA, accTTB)
and the fixture leg. -/
def candAB : TTRouteCandidate :=
  { rtype := "DIRECT", routeId := "5-9", originStop := accTTA
    destStop := accTTB
    transitDistance := jsRound ttLeg.distance
    transitDuration := jsRound ttLeg.duration
    trafficDelay := jsRound ttLeg.trafficDelay
    totalWalkingDistance := accTTA.walkingDistance + accTTB.walkingDistance
    totalWalkingDuration := accTTA.walkingDuration + accTTB.walkingDuration
    transfers := 0
    totalDuration := jsRound (ttLeg.duration +
      ((accTTA.walkingDuration + accTTB.walkingDuration : ℤ) : ℚ) +
      ttLeg.trafficDelay)
    coordinates := accTTA.walkingRoute ++ ttLeg.coordinates ++
      accTTB.walkingRoute
    dataSource := "tomtom-real-data" }

/-! ## Helper lemmas -/

theorem jsRound_mono {x y : ℚ} (h : x ≤ y) : jsRound x ≤ jsRound y :=
  Int.floor_le_floor (by linarith)

theorem jsRound_bounds (x : ℚ) :
    x - 1/2 < (jsRound x : ℚ) ∧ (jsRound x : ℚ) ≤ x + 1/2 := by
  unfold jsRound
  constructor
  · have h := Int.sub_one_lt_floor (x + 1/2)
    linarith
  · have h := Int.floor_le (x + 1/2)
    linarith

theorem roundTenth_mono {x y : ℚ} (h : x ≤ y) : roundTenth x ≤ roundTenth y := by
  unfold roundTenth
  have h2 : jsRound (x * 10) ≤ jsRound (y * 10) := jsRound_mono (by linarith)
  have h3 : ((jsRound (x * 10) : ℤ) : ℚ) ≤ ((jsRound (y * 10) : ℤ) : ℚ) := by
    exact_mod_cast h2
  linarith

theorem roundTenth_zero : roundTenth 0 = 0 := by
  unfold roundTenth jsRound
  norm_num

theorem roundTenth_hundred : roundTenth 100 = 100 := by
  unfold roundTenth jsRound
  norm_num

theorem clamp_bounds (x : ℚ) :
    0 ≤ max 0 (min 100 x) ∧ max 0 (min 100 x) ≤ 100 :=
  ⟨le_max_left 0 _, max_le (by norm_num) (min_le_left 100 x)⟩

theorem clamp_roundTenth_comm (x : ℚ) :
    max 0 (min 100 (roundTenth x)) = roundTenth (max 0 (min 100 x)) := by
  rcases le_total x 0 with hx | hx
  · have hrt : roundTenth x ≤ 0 := roundTenth_zero ▸ roundTenth_mono hx
    rw [min_eq_right (hx.trans (by norm_num)), max_eq_left hx,
      min_eq_right (hrt.trans (by norm_num)), max_eq_left hrt, roundTenth_zero]
  · rcases le_total 100 x with hx2 | hx2
    · have hrt : (100 : ℚ) ≤ roundTenth x :=
        roundTenth_hundred ▸ roundTenth_mono hx2
      rw [min_eq_left hx2, max_eq_right (by norm_num : (0:ℚ) ≤ 100),
        min_eq_left hrt, max_eq_right (by norm_num : (0:ℚ) ≤ 100),
        roundTenth_hundred]
    · have h0 : (0 : ℚ) ≤ roundTenth x := roundTenth_zero ▸ roundTenth_mono hx
      have h100 : roundTenth x ≤ 100 :=
        roundTenth_hundred ▸ roundTenth_mono hx2
      rw [min_eq_right hx2, max_eq_right hx, min_eq_right h100,
        max_eq_right h0]

theorem pairwise_insertionSort_le {α β : Type} [LinearOrder β] (f : α → β)
    (l : List α) :
    (List.insertionSort (fun a b => f a ≤ f b) l).Pairwise
      (fun a b => f a ≤ f b) := by
  haveI : IsTotal α fun a b => f a ≤ f b := ⟨fun a b => le_total (f a) (f b)⟩
  haveI : IsTrans α fun a b => f a ≤ f b := ⟨fun _ _ _ h1 h2 => h1.trans h2⟩
  exact List.sorted_insertionSort _ l

/-- Inserting an element whose secondary key is at most every secondary key of
a lexicographically sorted list, using only the primary (descending) key,
keeps the list lexicographically sorted. This is the stability argument for
the JS score re-sort. -/
theorem pairwise_orderedInsert_lex {α β γ : Type} [LinearOrder β]
    [Preorder γ] (f : α → β) (g : α → γ) (a : α) :
    ∀ M : List α,
      M.Pairwise (fun x y => f y < f x ∨ (f x = f y ∧ g x ≤ g y)) →
      (∀ b ∈ M, g a ≤ g b) →
      (List.orderedInsert (fun x y => f y ≤ f x) a M).Pairwise
        (fun x y => f y < f x ∨ (f x = f y ∧ g x ≤ g y))
  | [], _, _ => by simp
  | b :: M2, hM, hg => by
    rcases List.pairwise_cons.mp hM with ⟨hbAll, hM2⟩
    by_cases hr : f b ≤ f a
    · rw [List.orderedInsert, if_pos hr]
      refine List.pairwise_cons.mpr ⟨?_, hM⟩
      intro c hc
      rcases List.mem_cons.mp hc with hcb | hc2
      · subst hcb
        rcases lt_or_eq_of_le hr with hlt | heq
        · exact Or.inl hlt
        · exact Or.inr ⟨heq.symm, hg c (List.mem_cons_self c M2)⟩
      · rcases hbAll c hc2 with hlt | ⟨heq, _⟩
        · exact Or.inl (hlt.trans_le hr)
        · have hca : f c ≤ f a := heq ▸ hr
          rcases lt_or_eq_of_le hca with hlt2 | heq2
          · exact Or.inl hlt2
          · exact Or.inr ⟨heq2.symm, hg c (List.mem_cons_of_mem b hc2)⟩
    · rw [List.orderedInsert, if_neg hr]
      have hab : f a < f b := lt_of_not_le hr
      refine List.pairwise_cons.mpr ⟨?_, ?_⟩
      · intro c hc
        rcases (List.mem_orderedInsert _).mp hc with hca | hc2
        · subst hca
          exact Or.inl hab
        · exact hbAll c hc2
      · exact pairwise_orderedInsert_lex f g a M2 hM2
          (fun b2 hb2 => hg b2 (List.mem_cons_of_mem b hb2))

/-- A stable descending sort by a primary key of a list sorted ascending by a
secondary key is sorted lexicographically: primary strictly descending, ties
ascending in the secondary key. -/
theorem pairwise_insertionSort_lex {α β γ : Type} [LinearOrder β]
    [Preorder γ] (f : α → β) (g : α → γ) :
    ∀ l : List α, l.Pairwise (fun a b => g a ≤ g b) →
      (List.insertionSort (fun a b => f b ≤ f a) l).Pairwise
        (fun a b => f b < f a ∨ (f a = f b ∧ g a ≤ g b))
  | [], _ => by simp
  | a :: l2, hl => by
    rcases List.pairwise_cons.mp hl with ⟨hga, hl2⟩
    rw [List.insertionSort]
    exact pairwise_orderedInsert_lex f g a _
      (pairwise_insertionSort_lex f g l2 hl2)
      (fun b hb => hga b ((List.mem_insertionSort _).mp hb))

/-- Rounding a sum of two rationals and an integer differs from the sum of the
individually rounded rationals and the integer by at most one. -/
theorem jsRound_add_comm_err (a b : ℚ) (w : ℤ) :
    (jsRound (a + (w : ℚ) + b) - (jsRound a + w + jsRound b)).natAbs ≤ 1 := by
  obtain ⟨h1, h2⟩ := jsRound_bounds (a + (w : ℚ) + b)
  obtain ⟨h3, h4⟩ := jsRound_bounds a
  obtain ⟨h5, h6⟩ := jsRound_bounds b
  have hub : ((jsRound (a + (w : ℚ) + b) - (jsRound a + w + jsRound b) : ℤ) : ℚ) < 2 := by
    push_cast
    linarith
  have hlb : (-2 : ℚ) < ((jsRound (a + (w : ℚ) + b) - (jsRound a + w + jsRound b) : ℤ) : ℚ) := by
    push_cast
    linarith
  have hub2 : jsRound (a + (w : ℚ) + b) - (jsRound a + w + jsRound b) < 2 := by
    exact_mod_cast hub
  have hlb2 : (-2 : ℤ) < jsRound (a + (w : ℚ) + b) - (jsRound a + w + jsRound b) := by
    exact_mod_cast hlb
  omega

/-- A cache read whose raw backend read throws is absorbed to a miss. -/
theorem cacheGet_failed {V : Type} (c : RedisClient V) (key : String)
    (h : c.rawGet key = Except.error ()) :
    CacheService.get c key = Except.ok none := by
  unfold CacheService.get
  split
  · rfl
  · rw [h]

/-- A cache write never raises, whatever the backend does. -/
theorem cacheSet_ok {V : Type} (c : RedisClient V) (key : String) (v : V)
    (ttl : ℚ) : CacheService.set c key v ttl = Except.ok () := by
  unfold CacheService.set
  split
  · rfl
  · split <;> rfl

/-- The cached routing adapter behaves identically over a cache whose raw
reads all throw and over a disabled cache: the provider outcome decides the
call either way. -/
theorem getRoute_cacheFailed (c : RedisClient TomTomRouteData)
    (provider : ℚ → ℚ → ℚ → ℚ → Except Unit TomTomRouteData)
    (oLat oLon dLat dLon : ℚ)
    (h : ∀ key, c.rawGet key = Except.error ()) :
    TomTomRoutingService.getRoute c provider oLat oLon dLat dLon =
    TomTomRoutingService.getRoute (disabledRedis TomTomRouteData) provider
      oLat oLon dLat dLon := by
  unfold TomTomRoutingService.getRoute
  dsimp only
  rw [cacheGet_failed c _ (h _),
    cacheGet_failed (disabledRedis TomTomRouteData) _ rfl]
  cases hprov : provider oLat oLon dLat dLon <;>
    simp [hprov, cacheSet_ok]

/-! ## Claim theorems -/

/-- Claim C2, counterexample: the scoring function of the primary TomTom
backend does not compute the claimed formula. For a candidate with a 1200 s
total duration and no other penalties, and zone density scores 100 and 100,
the claimed formula yields 95 (the density bonus applies) while
calculateScore yields 90 (it has no density bonus, only a traffic-confidence
bonus). -/
theorem calculateScore_ne_specFormula_cex :
    RouteOptimizer.calculateScore cexRouteLong none none = 90 ∧
    specScoreC2 (cexRouteLong.totalDuration : ℚ)
      (cexRouteLong.totalWalkingDistance : ℚ) cexRouteLong.transfers
      (cexRouteLong.trafficDelay : ℚ) 100 100 = 95 ∧
    RouteOptimizer.calculateScore cexRouteLong none none ≠
      specScoreC2 (cexRouteLong.totalDuration : ℚ)
        (cexRouteLong.totalWalkingDistance : ℚ) cexRouteLong.transfers
        (cexRouteLong.trafficDelay : ℚ) 100 100 := by
  have h1 : RouteOptimizer.calculateScore cexRouteLong none none = 90 := by
    norm_num [RouteOptimizer.calculateScore, cexRouteLong, cexRouteSlow,
      TrafficInfo.confidenceHigh, roundTenth, jsRound]
  have h2 : specScoreC2 (cexRouteLong.totalDuration : ℚ)
      (cexRouteLong.totalWalkingDistance : ℚ) cexRouteLong.transfers
      (cexRouteLong.trafficDelay : ℚ) 100 100 = 95 := by
    norm_num [specScoreC2, cexRouteLong, cexRouteSlow, roundTenth, jsRound]
  exact ⟨h1, h2, by rw [h1, h2]; norm_num⟩

/-- Claim C2 (amended): the scoring function of the part_003 backend,
calculateRealScore, computes exactly the claimed formula with the
traffic-delay term fixed at zero (its candidates carry no traffic delay);
the TomTom variants instead subtract the delay term but replace the
mean-density bonus by a traffic-confidence bonus of 3 per endpoint. -/
theorem calculateRealScore_eq_specFormula_noDelay
    (route : OrsRouteCandidate) (originDensity destDensity : DensityInfo) :
    RouteOptimizer.calculateRealScore route originDensity destDensity =
    specScoreC2 route.totalDuration route.totalWalkingDistance route.transfers
      0 originDensity.densityScore destDensity.densityScore := by
  unfold RouteOptimizer.calculateRealScore specScoreC2
  dsimp only
  rw [clamp_roundTenth_comm]
  split_ifs with h
  · congr 3
    ring
  · congr 3
    ring

/-- Claim C8: cache reads and writes never raise to their caller -- a read
over a failed or closed backend is a miss, a write is a no-op -- and cache
unavailability never changes the outcome of the cached routing adapter or of
an optimization call built on it. -/
theorem cache_never_raises_and_advisory :
    (∀ (V : Type) (c : RedisClient V) (key : String),
      ∃ v, CacheService.get c key = Except.ok v) ∧
    (∀ (V : Type) (c : RedisClient V) (key : String) (value : V) (ttl : ℚ),
      CacheService.set c key value ttl = Except.ok ()) ∧
    (∀ (c : RedisClient TomTomRouteData)
      (provider : ℚ → ℚ → ℚ → ℚ → Except Unit TomTomRouteData)
      (oLat oLon dLat dLon : ℚ),
      (∀ key, c.rawGet key = Except.error ()) →
      TomTomRoutingService.getRoute c provider oLat oLon dLat dLon =
      TomTomRoutingService.getRoute (disabledRedis TomTomRouteData) provider
        oLat oLon dLat dLon) ∧
    (∀ (c : RedisClient TomTomRouteData)
      (provider : ℚ → ℚ → ℚ → ℚ → Except Unit TomTomRouteData)
      (stopsOracle : ℚ → ℚ → ℚ → List Stop)
      (walkOracle : ℚ → ℚ → ℚ → ℚ → Option WalkRoute)
      (trafficOracle : ℚ → ℚ → Option TrafficInfo)
      (origin destination : GeoPoint) (ts : String),
      (∀ key, c.rawGet key = Except.error ()) →
      RouteOptimizer.optimizeRoute
        ⟨stopsOracle, walkOracle, cachedCarOracle c provider, trafficOracle⟩
        origin destination ts =
      RouteOptimizer.optimizeRoute
        ⟨stopsOracle, walkOracle,
          cachedCarOracle (disabledRedis TomTomRouteData) provider,
          trafficOracle⟩ origin destination ts) := by
  refine ⟨?_, ?_, ?_, ?_⟩
  · intro V c key
    unfold CacheService.get
    split
    · exact ⟨none, rfl⟩
    · cases hg : c.rawGet key with
      | ok v => exact ⟨v, rfl⟩
      | error e => exact ⟨none, rfl⟩
  · intro V c key value ttl
    exact cacheSet_ok c key value ttl
  · intro c provider oLat oLon dLat dLon h
    exact getRoute_cacheFailed c provider oLat oLon dLat dLon h
  · intro c provider stopsOracle walkOracle trafficOracle origin destination
      ts h
    have hfun : cachedCarOracle c provider =
        cachedCarOracle (disabledRedis TomTomRouteData) provider := by
      funext qa qb qc qd
      unfold cachedCarOracle
      rw [getRoute_cacheFailed c provider qa qb qc qd h]
    rw [hfun]

/-- Claim C8, witness: the cache theorem applied to a concrete open client
whose every raw operation throws, a constant provider and concrete
coordinates. -/
theorem cache_never_raises_witness :
    CacheService.set failingRedis "k" ttLeg 300 = Except.ok () ∧
    TomTomRoutingService.getRoute failingRedis constProvider 1 2 3 4 =
      TomTomRoutingService.getRoute (disabledRedis TomTomRouteData)
        constProvider 1 2 3 4 ∧
    RouteOptimizer.optimizeRoute
      ⟨fun _ _ _ => [stopA], nearWalkOracle,
        cachedCarOracle failingRedis constProvider, fun _ _ => none⟩
      ⟨0, 0⟩ ⟨1, 1⟩ "now" =
    RouteOptimizer.optimizeRoute
      ⟨fun _ _ _ => [stopA], nearWalkOracle,
        cachedCarOracle (disabledRedis TomTomRouteData) constProvider,
        fun _ _ => none⟩ ⟨0, 0⟩ ⟨1, 1⟩ "now" :=
  ⟨cache_never_raises_and_advisory.2.1 TomTomRouteData failingRedis "k"
      ttLeg 300,
   cache_never_raises_and_advisory.2.2.1 failingRedis constProvider 1 2 3 4
      (fun _ => rfl),
   cache_never_raises_and_advisory.2.2.2 failingRedis constProvider
      (fun _ _ _ => [stopA]) nearWalkOracle (fun _ _ => none) ⟨0, 0⟩ ⟨1, 1⟩
      "now" (fun _ => rfl)⟩

/-- Claim C9: for a fixed set of provider responses, two optimization calls
with the same origin and destination produce identical results -- routes,
scores, order, warnings, endpoint records and metadata -- up to the timestamp
field. -/
theorem optimizeRoute_deterministic_up_to_timestamp
    (p : Providers) (origin destination : GeoPoint) (t1 t2 : String) :
    eraseTimestampE (RouteOptimizer.optimizeRoute p origin destination t1) =
    eraseTimestampE (RouteOptimizer.optimizeRoute p origin destination t2) := by
  unfold RouteOptimizer.optimizeRoute
  dsimp only
  repeat' split
  all_goals simp [eraseTimestampE, eraseTimestamp]

/-- Claim C3, counterexample: the primary TomTom backend does not sort the
returned list by score. Two candidates, one with duration 600 s but 1000 m of
walking (score 80) and one with duration 700 s and no walking (score 94.2),
are returned in duration order 80, 94.2 -- not descending by score. -/
theorem rankRoutes_not_score_sorted_cex :
    (RouteOptimizer.rankRoutes [cexRouteSlow, cexRouteFast] none none).map
        (fun r => r.score) = [80, 471/5] ∧
    ¬ List.Pairwise (fun a b : ℚ => b ≤ a)
        ((RouteOptimizer.rankRoutes [cexRouteSlow, cexRouteFast]
          none none).map (fun r => r.score)) := by
  have h1 : (RouteOptimizer.rankRoutes [cexRouteSlow, cexRouteFast]
      none none).map (fun r => r.score) = [80, 471/5] := by
    norm_num [RouteOptimizer.rankRoutes, RouteOptimizer.calculateScore,
      List.insertionSort, List.orderedInsert, cexRouteSlow, cexRouteFast,
      TrafficInfo.confidenceHigh, roundTenth, jsRound]
  refine ⟨h1, ?_⟩
  rw [h1]
  norm_num [List.pairwise_cons]

/-- Claim C3 (amended): every returned score lies in the range 0 to 100 and
the list is truncated to five entries in both TomTom variants; but only the
urban-density variant returns the list sorted descending by score (with ties
in ascending duration order, through the stable re-sort of the
duration-sorted list); the primary variant returns it sorted ascending by
totalDuration instead. -/
theorem ranking_sorted_bounded_truncated :
    (∀ (routes : List TTRouteCandidate) (oT dT : Option TrafficInfo),
      (RouteOptimizer.rankRoutes routes oT dT).Pairwise
        (fun a b => a.totalDuration ≤ b.totalDuration) ∧
      (RouteOptimizer.rankRoutes routes oT dT).length ≤ 5 ∧
      ∀ r ∈ RouteOptimizer.rankRoutes routes oT dT,
        0 ≤ r.score ∧ r.score ≤ 100) ∧
    (∀ (routes : List TTRouteCandidate) (oT dT : Option TrafficInfo)
      (oD dD : DensityAnalysis),
      (RouteOptimizer.rankRoutesWithDensity routes oT dT oD dD).Pairwise
        (fun a b => b.score < a.score ∨
          (a.score = b.score ∧ a.totalDuration ≤ b.totalDuration)) ∧
      (RouteOptimizer.rankRoutesWithDensity routes oT dT oD dD).length ≤ 5 ∧
      ∀ r ∈ RouteOptimizer.rankRoutesWithDensity routes oT dT oD dD,
        0 ≤ r.score ∧ r.score ≤ 100) := by
  constructor
  · intro routes oT dT
    refine ⟨?_, ?_, ?_⟩
    · unfold RouteOptimizer.rankRoutes
      dsimp only
      apply List.Pairwise.sublist (List.take_sublist _ _)
      rw [List.pairwise_map]
      exact pairwise_insertionSort_le
        (fun r : TTRouteCandidate => r.totalDuration) routes
    · unfold RouteOptimizer.rankRoutes
      dsimp only
      exact List.length_take_le 5 _
    · intro r hr
      unfold RouteOptimizer.rankRoutes at hr
      dsimp only at hr
      obtain ⟨route, _, heq⟩ := List.mem_map.mp (List.mem_of_mem_take hr)
      have hscore : r.score =
          RouteOptimizer.calculateScore route oT dT := by
        rw [← heq]
      rw [hscore]
      unfold RouteOptimizer.calculateScore
      dsimp only
      exact clamp_bounds _
  · intro routes oT dT oD dD
    refine ⟨?_, ?_, ?_⟩
    · unfold RouteOptimizer.rankRoutesWithDensity
      dsimp only
      apply List.Pairwise.sublist (List.take_sublist _ _)
      apply pairwise_insertionSort_lex
        (fun r : ScoredRouteB => r.score)
        (fun r : ScoredRouteB => r.totalDuration)
      rw [List.pairwise_map]
      exact pairwise_insertionSort_le
        (fun r : TTRouteCandidate => r.totalDuration) routes
    · unfold RouteOptimizer.rankRoutesWithDensity
      dsimp only
      exact List.length_take_le 5 _
    · intro r hr
      unfold RouteOptimizer.rankRoutesWithDensity at hr
      dsimp only at hr
      have hr2 := (List.mem_insertionSort _).mp (List.mem_of_mem_take hr)
      obtain ⟨route, _, heq⟩ := List.mem_map.mp hr2
      have hscore : r.score = max 0 (min 100
          (RouteOptimizer.calculateBaseScore route oT dT +
            UrbanDensityAnalyzer.adjustRouteScore route oD dD)) := by
        rw [← heq]
      rw [hscore]
      exact clamp_bounds _

/-- Claim C3, witness: the score bound of the amended theorem at the
singleton candidate list, whose single returned route scores 80. -/
theorem ranking_sorted_bounded_truncated_witness :
    0 ≤ (⟨cexRouteSlow, 80⟩ : ScoredRoute).score ∧
    (⟨cexRouteSlow, 80⟩ : ScoredRoute).score ≤ 100 :=
  (ranking_sorted_bounded_truncated.1 [cexRouteSlow] none none).2.2
    ⟨cexRouteSlow, 80⟩
    (by norm_num [RouteOptimizer.rankRoutes, RouteOptimizer.calculateScore,
      List.insertionSort, List.orderedInsert, cexRouteSlow,
      TrafficInfo.confidenceHigh, roundTenth, jsRound])

/-- Claim C5: every candidate built by either generator has transferCount 0
and a totalDurationSeconds that is the literal sum of its components. In the
part_003 generator the sum is exact (transit duration plus both walking
durations plus the always-zero transfer-penalty term; it has no traffic
delay); in the TomTom generator the stored components are individually
rounded, so the stored total differs from the sum of stored components by at
most one second. -/
theorem totalDuration_is_component_sum :
    (∀ (getRoute : ℚ → ℚ → ℚ → ℚ → Option OrsRouteData)
      (accO accD : List AccessibleStop) (c : OrsRouteCandidate),
      c ∈ (RouteOptimizer.findCommonRouteCandidates getRoute accO accD).1 →
      c.transfers = 0 ∧
      c.totalDuration = c.transitDuration + c.originStop.walkingDuration +
        c.destStop.walkingDuration +
        (c.transfers : ℚ) * orsConfig.transferPenalty) ∧
    (∀ (getRoute : ℚ → ℚ → ℚ → ℚ → Option TomTomRouteData)
      (accO accD : List AccessibleStopTT) (c : TTRouteCandidate),
      c ∈ RouteOptimizer.buildDirectRoutes getRoute accO accD →
      c.transfers = 0 ∧
      (c.totalDuration - (c.transitDuration + c.totalWalkingDuration +
        (c.transfers : ℤ) * 180 + c.trafficDelay)).natAbs ≤ 1) := by
  constructor
  · intro getRoute accO accD c hc
    unfold RouteOptimizer.findCommonRouteCandidates at hc
    dsimp only at hc
    obtain ⟨o, _, hc2⟩ := List.mem_flatMap.mp hc
    obtain ⟨d, _, hc3⟩ := List.mem_flatMap.mp hc2
    obtain ⟨rid, _, heq⟩ := List.mem_filterMap.mp hc3
    obtain ⟨t, _, hmk⟩ := Option.map_eq_some'.mp heq
    subst hmk
    unfold RouteOptimizer.mkDirectRoute
    refine ⟨rfl, ?_⟩
    dsimp only
    norm_num [orsConfig.transferPenalty]
  · intro getRoute accO accD c hc
    unfold RouteOptimizer.buildDirectRoutes at hc
    obtain ⟨o, _, hc2⟩ := List.mem_flatMap.mp hc
    obtain ⟨d, _, hc3⟩ := List.mem_filterMap.mp hc2
    obtain ⟨t, _, hmk⟩ := Option.map_eq_some'.mp hc3
    subst hmk
    dsimp only
    refine ⟨rfl, ?_⟩
    have h := jsRound_add_comm_err t.duration t.trafficDelay
      (o.walkingDuration + d.walkingDuration)
    push_cast at h ⊢
    omega

/-- Claim C5, witness: the component-sum law applied to the one candidate
generated from the concrete accessible stops A and C, which share route 5. -/
theorem totalDuration_is_component_sum_witness :
    (RouteOptimizer.mkDirectRoute accA accC "5" orsLeg).transfers = 0 ∧
    (RouteOptimizer.mkDirectRoute accA accC "5" orsLeg).totalDuration =
      (RouteOptimizer.mkDirectRoute accA accC "5" orsLeg).transitDuration +
      (RouteOptimizer.mkDirectRoute accA accC "5" orsLeg).originStop.walkingDuration +
      (RouteOptimizer.mkDirectRoute accA accC "5" orsLeg).destStop.walkingDuration +
      ((RouteOptimizer.mkDirectRoute accA accC "5" orsLeg).transfers : ℚ) *
        orsConfig.transferPenalty :=
  totalDuration_is_component_sum.1 orsLegOracle [accA] [accC]
    (RouteOptimizer.mkDirectRoute accA accC "5" orsLeg)
    (by
      rw [show (RouteOptimizer.findCommonRouteCandidates orsLegOracle
          [accA] [accC]).1 =
          [RouteOptimizer.mkDirectRoute accA accC "5" orsLeg] from rfl]
      exact List.mem_singleton.mpr rfl)

/-- Claim C6, counterexample: the primary TomTom backend builds a direct
candidate for a stop pair with no shared route at all. Stops A (routes [5])
and B (routes [9]) share nothing, yet the generator returns one candidate
with transferCount 0 and the synthesized label 5-9. -/
theorem tomtom_pairs_without_shared_routes_cex :
    (accTTA.routes.filter (fun r => accTTB.routes.contains r) = []) ∧
    (RouteOptimizer.buildDirectRoutes ttLegOracle [accTTA] [accTTB]).map
        (fun c => (c.routeId, c.transfers)) = [("5-9", 0)] := by
  constructor
  · rfl
  · rfl

/-- Claim C6 (amended): only the part_003 generator restricts direct
candidates to shared route identifiers: every candidate it emits has
transferCount 0 and a routeId served by both its stops, and conversely each
shared route id of a considered pair whose transit leg succeeds yields its
candidate. The TomTom backend instead pairs stops regardless of served
routes. -/
theorem direct_candidates_shared_routes_part003 :
    (∀ (getRoute : ℚ → ℚ → ℚ → ℚ → Option OrsRouteData)
      (accO accD : List AccessibleStop) (c : OrsRouteCandidate),
      c ∈ (RouteOptimizer.findCommonRouteCandidates getRoute accO accD).1 →
      c.transfers = 0 ∧ c.routeId ∈ c.originStop.routes ∧
        c.routeId ∈ c.destStop.routes) ∧
    (∀ (getRoute : ℚ → ℚ → ℚ → ℚ → Option OrsRouteData)
      (accO accD : List AccessibleStop) (o d : AccessibleStop) (rid : String)
      (t : OrsRouteData),
      o ∈ accO.take 5 → d ∈ accD.take 5 → rid ∈ o.routes → rid ∈ d.routes →
      getRoute o.lat o.lon d.lat d.lon = some t →
      RouteOptimizer.mkDirectRoute o d rid t ∈
        (RouteOptimizer.findCommonRouteCandidates getRoute accO accD).1) := by
  constructor
  · intro getRoute accO accD c hc
    unfold RouteOptimizer.findCommonRouteCandidates at hc
    dsimp only at hc
    obtain ⟨o, _, hc2⟩ := List.mem_flatMap.mp hc
    obtain ⟨d, _, hc3⟩ := List.mem_flatMap.mp hc2
    obtain ⟨rid, hrid, heq⟩ := List.mem_filterMap.mp hc3
    obtain ⟨t, _, hmk⟩ := Option.map_eq_some'.mp heq
    subst hmk
    obtain ⟨hrid1, hrid2⟩ := List.mem_filter.mp hrid
    refine ⟨rfl, ?_, ?_⟩
    · exact hrid1
    · simpa using hrid2
  · intro getRoute accO accD o d rid t ho hd hr1 hr2 hleg
    unfold RouteOptimizer.findCommonRouteCandidates
    dsimp only
    refine List.mem_flatMap.mpr ⟨o, ho, ?_⟩
    refine List.mem_flatMap.mpr ⟨d, hd, ?_⟩
    refine List.mem_filterMap.mpr ⟨rid, ?_, ?_⟩
    · exact List.mem_filter.mpr ⟨hr1, by simpa using hr2⟩
    · rw [hleg]
      rfl

/-- Claim C6, witness: both directions of the amended theorem at the
concrete stops A and C sharing route 5 (membership in the generated list and
the shared-route property of the generated candidate). -/
theorem direct_candidates_shared_routes_witness :
    (RouteOptimizer.mkDirectRoute accA accC "5" orsLeg ∈
      (RouteOptimizer.findCommonRouteCandidates orsLegOracle
        [accA] [accC]).1) ∧
    ((RouteOptimizer.mkDirectRoute accA accC "5" orsLeg).transfers = 0 ∧
      (RouteOptimizer.mkDirectRoute accA accC "5" orsLeg).routeId ∈
        (RouteOptimizer.mkDirectRoute accA accC "5" orsLeg).originStop.routes ∧
      (RouteOptimizer.mkDirectRoute accA accC "5" orsLeg).routeId ∈
        (RouteOptimizer.mkDirectRoute accA accC "5" orsLeg).destStop.routes) := by
  have hmem : RouteOptimizer.mkDirectRoute accA accC "5" orsLeg ∈
      (RouteOptimizer.findCommonRouteCandidates orsLegOracle
        [accA] [accC]).1 :=
    direct_candidates_shared_routes_part003.2 orsLegOracle [accA] [accC]
      accA accC "5" orsLeg (List.mem_singleton.mpr rfl)
      (List.mem_singleton.mpr rfl) (List.mem_singleton.mpr rfl)
      (List.mem_singleton.mpr rfl) rfl
  exact ⟨hmem, direct_candidates_shared_routes_part003.1 orsLegOracle
    [accA] [accC] _ hmem⟩

/-- Claim C1, counterexample: with one accessible stop on each side and no
shared route (routes [5] against routes [9]), the part_003 candidate
generator returns the empty list -- no fallback candidate with transferCount
1 and degraded data quality exists anywhere in the code. -/
theorem noSharedRoutes_no_fallback_cex :
    ([accA] ≠ ([] : List AccessibleStop)) ∧
    ([accB] ≠ ([] : List AccessibleStop)) ∧
    (accA.routes.filter (fun r => accB.routes.contains r) = []) ∧
    (RouteOptimizer.findCommonRouteCandidates orsLegOracle
      [accA] [accB]).1 = [] := by
  refine ⟨by simp, by simp, rfl, rfl⟩

/-- Claim C1 (amended): when no considered stop pair shares a route id, the
part_003 candidate generator produces no candidates at all -- the returned
list is empty, there is no fallback candidate. (The TomTom variants instead
pair stops regardless of shared routes, always with transferCount 0.) -/
theorem noSharedRoutes_empty_candidates
    (getRoute : ℚ → ℚ → ℚ → ℚ → Option OrsRouteData)
    (accO accD : List AccessibleStop)
    (h : ∀ o ∈ accO.take 5, ∀ d ∈ accD.take 5,
      o.routes.filter (fun r => d.routes.contains r) = []) :
    (RouteOptimizer.findCommonRouteCandidates getRoute accO accD).1 = [] := by
  unfold RouteOptimizer.findCommonRouteCandidates
  dsimp only
  rw [List.flatMap_eq_nil_iff]
  intro o ho
  rw [List.flatMap_eq_nil_iff]
  intro d hd
  rw [h o ho d hd]
  rfl

/-- Claim C1, witness: the amended theorem applied to the concrete accessible
stops B (routes [9]) and C (routes [5]). -/
theorem noSharedRoutes_empty_candidates_witness :
    (RouteOptimizer.findCommonRouteCandidates orsLegOracle
      [accB] [accC]).1 = [] :=
  noSharedRoutes_empty_candidates orsLegOracle [accB] [accC]
    (fun o ho d hd => by
      have ho2 : o = accB := List.mem_singleton.mp ho
      have hd2 : d = accC := List.mem_singleton.mp hd
      subst ho2
      subst hd2
      rfl)

/-- Claim C4, counterexample: a non-empty stop list whose every walking leg
measures 1000 m (beyond the 800 m budget) yields an empty accessible-stop
list in both filter variants: no stop is re-included with a relaxed budget,
and no withinBudget flag exists in the code. -/
theorem no_relaxation_pass_cex :
    ([stopA] ≠ ([] : List Stop)) ∧
    PublicTransportService.findAccessibleStops farWalkOracle 0 0 [stopA]
      = [] ∧
    TomTomTransitService.findAccessibleStops farWalkOracle 0 0 [stopA]
      = [] := by
  refine ⟨by simp, rfl, rfl⟩

/-- Claim C4 (amended): there is no relaxation pass. When every stop of the
input list fails its walking leg or exceeds the budget, both filter variants
return the empty list; the variant A orchestrator then records a
NO_ACCESSIBLE_STOPS warning naming the empty side instead of re-including
any stop. -/
theorem filter_returns_empty_when_all_over_budget
    (walk : ℚ → ℚ → ℚ → ℚ → Option WalkRoute) (oLat oLon : ℚ)
    (stops : List Stop)
    (h : ∀ s ∈ stops, ∀ w, walk oLat oLon s.lat s.lon = some w →
      (800 : ℚ) < w.distance) :
    PublicTransportService.findAccessibleStops walk oLat oLon stops = [] ∧
    TomTomTransitService.findAccessibleStops walk oLat oLon stops = [] ∧
    ∀ accD : List AccessibleStopTT,
      ({ wtype := "NO_ACCESSIBLE_STOPS_ORIGIN"
         message := "Tous les arrets origine depassent la distance de marche maximale." }
        : Warning) ∈ RouteOptimizer.accessibilityWarnings [] accD := by
  refine ⟨?_, ?_, ?_⟩
  · unfold PublicTransportService.findAccessibleStops
    dsimp only
    refine Eq.trans (congrArg _ (List.filterMap_eq_nil_iff.mpr ?_)) rfl
    intro s hs
    cases hw : walk oLat oLon s.lat s.lon with
    | none => rfl
    | some w =>
      have hgt : ¬ w.distance ≤ orsConfig.maxWalkingDistance :=
        not_le.mpr (h s hs w hw)
      dsimp only
      rw [if_neg hgt]
  · unfold TomTomTransitService.findAccessibleStops
    dsimp only
    refine Eq.trans (congrArg _ (List.filterMap_eq_nil_iff.mpr ?_)) rfl
    intro s hs
    cases hw : walk oLat oLon s.lat s.lon with
    | none => rfl
    | some w =>
      have hgt : ¬ w.distance ≤ ttConfig.maxWalkingDistance :=
        not_le.mpr (h s hs w hw)
      dsimp only
      rw [if_neg hgt]
  · intro accD
    unfold RouteOptimizer.accessibilityWarnings
    simp

/-- Claim C4, witness: the amended theorem applied to the concrete 1000 m
walking oracle and the singleton stop list. -/
theorem filter_returns_empty_witness :
    PublicTransportService.findAccessibleStops farWalkOracle 0 0 [stopC]
      = [] ∧
    TomTomTransitService.findAccessibleStops farWalkOracle 0 0 [stopC]
      = [] ∧
    ∀ accD : List AccessibleStopTT,
      ({ wtype := "NO_ACCESSIBLE_STOPS_ORIGIN"
         message := "Tous les arrets origine depassent la distance de marche maximale." }
        : Warning) ∈ RouteOptimizer.accessibilityWarnings [] accD :=
  filter_returns_empty_when_all_over_budget farWalkOracle 0 0 [stopC]
    (fun s _ w hw => by
      have hwd : w = { coordinates := [], distance := 1000, duration := 700 } := by
        cases hw
        rfl
      rw [hwd]
      norm_num)

/-- Claim C7: both accessibility filters return only stops within the 800 m
walking budget, ordered ascending by walking distance, and a stop whose
individual walking-leg request fails is dropped without affecting the rest of
the call. -/
theorem findAccessibleStops_budget_sorted_dropped :
    (∀ (walk : ℚ → ℚ → ℚ → ℚ → Option WalkRoute) (oLat oLon : ℚ)
      (stops : List Stop),
      (PublicTransportService.findAccessibleStops walk oLat oLon
        stops).Pairwise (fun a b => a.walkingDistance ≤ b.walkingDistance) ∧
      (∀ s ∈ PublicTransportService.findAccessibleStops walk oLat oLon stops,
        s.walkingDistance ≤ orsConfig.maxWalkingDistance) ∧
      (∀ s0 : Stop, walk oLat oLon s0.lat s0.lon = none →
        PublicTransportService.findAccessibleStops walk oLat oLon
          (s0 :: stops) =
        PublicTransportService.findAccessibleStops walk oLat oLon stops)) ∧
    (∀ (walk : ℚ → ℚ → ℚ → ℚ → Option WalkRoute) (oLat oLon : ℚ)
      (stops : List Stop),
      (TomTomTransitService.findAccessibleStops walk oLat oLon
        stops).Pairwise (fun a b => a.walkingDistance ≤ b.walkingDistance) ∧
      (∀ s ∈ TomTomTransitService.findAccessibleStops walk oLat oLon stops,
        s.walkingDistance ≤ 800) ∧
      (∀ s0 : Stop, walk oLat oLon s0.lat s0.lon = none →
        TomTomTransitService.findAccessibleStops walk oLat oLon
          (s0 :: stops) =
        TomTomTransitService.findAccessibleStops walk oLat oLon stops)) := by
  constructor
  · intro walk oLat oLon stops
    refine ⟨?_, ?_, ?_⟩
    · unfold PublicTransportService.findAccessibleStops
      dsimp only
      exact pairwise_insertionSort_le
        (fun a : AccessibleStop => a.walkingDistance) _
    · intro s hs
      unfold PublicTransportService.findAccessibleStops at hs
      dsimp only at hs
      obtain ⟨a, _, hfa⟩ :=
        List.mem_filterMap.mp ((List.mem_insertionSort _).mp hs)
      revert hfa
      cases hw : walk oLat oLon a.lat a.lon with
      | none => intro hfa; cases hfa
      | some w =>
        dsimp only
        split_ifs with hbudget
        · intro hfa
          cases hfa
          exact hbudget
        · intro hfa
          cases hfa
    · intro s0 hw
      unfold PublicTransportService.findAccessibleStops
      dsimp only
      rw [List.filterMap_cons]
      rw [hw]
  · intro walk oLat oLon stops
    refine ⟨?_, ?_, ?_⟩
    · unfold TomTomTransitService.findAccessibleStops
      dsimp only
      exact pairwise_insertionSort_le
        (fun a : AccessibleStopTT => a.walkingDistance) _
    · intro s hs
      unfold TomTomTransitService.findAccessibleStops at hs
      dsimp only at hs
      obtain ⟨a, _, hfa⟩ :=
        List.mem_filterMap.mp ((List.mem_insertionSort _).mp hs)
      revert hfa
      cases hw : walk oLat oLon a.lat a.lon with
      | none => intro hfa; cases hfa
      | some w =>
        dsimp only
        split_ifs with hbudget
        · intro hfa
          cases hfa
          dsimp only
          have h1 : jsRound w.distance ≤ jsRound 800 := jsRound_mono hbudget
          have h2 : jsRound (800 : ℚ) = 800 := by
            unfold jsRound
            norm_num
          omega
        · intro hfa
          cases hfa
    · intro s0 hw
      unfold TomTomTransitService.findAccessibleStops
      dsimp only
      rw [List.filterMap_cons]
      rw [hw]

/-- Claim C7, witness: a failing leg (for stop B) is dropped without
affecting the filtering of the rest, and the accessible stop built from a
300 m leg to stop A is within the budget. -/
theorem findAccessibleStops_witness :
    (PublicTransportService.findAccessibleStops mixedWalkOracle 0 0
        (stopB :: [stopA]) =
      PublicTransportService.findAccessibleStops mixedWalkOracle 0 0
        [stopA]) ∧
    nearAccA.walkingDistance ≤ orsConfig.maxWalkingDistance :=
  ⟨(findAccessibleStops_budget_sorted_dropped.1 mixedWalkOracle 0 0
      [stopA]).2.2 stopB rfl,
   (findAccessibleStops_budget_sorted_dropped.1 nearWalkOracle 0 0
      [stopA]).2.1 nearAccA
      (by
        rw [show PublicTransportService.findAccessibleStops nearWalkOracle
            0 0 [stopA] = [nearAccA] from rfl]
        exact List.mem_singleton.mpr rfl)⟩

/-- Helper for claim C10: extractRoutesFromStop never returns an empty
list. -/
theorem extractRoutesFromStop_ne_nil
    (matchTokens : String → Option (List String)) (stop : RawStop) :
    TomTomTransitService.extractRoutesFromStop matchTokens stop ≠ [] := by
  unfold TomTomTransitService.extractRoutesFromStop
  dsimp only
  split
  · next hlen =>
    intro hnil
    rw [hnil] at hlen
    simp at hlen
  · simp

/-- Helper: the head of a non-empty list with a default is a member. -/
theorem headD_mem_of_ne_nil {α : Type} (l : List α) (dflt : α)
    (h : l ≠ []) : l.headD dflt ∈ l := by
  cases l with
  | nil => exact absurd rfl h
  | cons a t => exact List.mem_cons_self a t

/-- Claim C10: in the primary TomTom backend every discovered stop has a
non-empty route list (the fixed list L1, L2 is substituted when the name
yields no tokens), and every candidate label built from stops with non-empty
route lists is the well-formed concatenation of a served route of each
side. -/
theorem extractRoutes_nonempty_and_routeId_wellformed :
    (∀ (matchTokens : String → Option (List String)) (stop : RawStop),
      TomTomTransitService.extractRoutesFromStop matchTokens stop ≠ []) ∧
    (∀ (matchTokens : String → Option (List String))
      (results : List RawStop) (s : Stop),
      s ∈ TomTomTransitService.mapStops matchTokens results →
      s.routes ≠ []) ∧
    (∀ (getRoute : ℚ → ℚ → ℚ → ℚ → Option TomTomRouteData)
      (accO accD : List AccessibleStopTT) (c : TTRouteCandidate),
      c ∈ RouteOptimizer.buildDirectRoutes getRoute accO accD →
      c.originStop.routes ≠ [] → c.destStop.routes ≠ [] →
      ∃ r1 r2, r1 ∈ c.originStop.routes ∧ r2 ∈ c.destStop.routes ∧
        c.routeId = r1 ++ "-" ++ r2) := by
  refine ⟨extractRoutesFromStop_ne_nil, ?_, ?_⟩
  · intro matchTokens results s hs
    unfold TomTomTransitService.mapStops at hs
    obtain ⟨p, _, heq⟩ := List.mem_map.mp hs
    have hr : s.routes =
        TomTomTransitService.extractRoutesFromStop matchTokens p.2 := by
      rw [← heq]
    rw [hr]
    exact extractRoutesFromStop_ne_nil matchTokens p.2
  · intro getRoute accO accD c hc
    unfold RouteOptimizer.buildDirectRoutes at hc
    obtain ⟨o, _, hc2⟩ := List.mem_flatMap.mp hc
    obtain ⟨d, _, hc3⟩ := List.mem_filterMap.mp hc2
    obtain ⟨t, _, hmk⟩ := Option.map_eq_some'.mp hc3
    subst hmk
    dsimp only
    intro ho hd
    exact ⟨o.routes.headD "undefined", d.routes.headD "undefined",
      headD_mem_of_ne_nil _ _ ho, headD_mem_of_ne_nil _ _ hd, rfl⟩

/-- Claim C10, witness: the theorem applied to a matcher that never matches,
a raw stop, the singleton discovery response and the concrete candidate the
generator builds from stops A and B. -/
theorem extractRoutes_nonempty_witness :
    (TomTomTransitService.extractRoutesFromStop noTokenMatcher rawStopX
      ≠ []) ∧
    (({ id := "tomtom_0", lat := 1, lon := 2, name := "Gare Centrale"
        routes := ["L1", "L2"] } : Stop).routes ≠ []) ∧
    (∃ r1 r2, r1 ∈ candAB.originStop.routes ∧ r2 ∈ candAB.destStop.routes ∧
      candAB.routeId = r1 ++ "-" ++ r2) :=
  ⟨extractRoutes_nonempty_and_routeId_wellformed.1 noTokenMatcher rawStopX,
   extractRoutes_nonempty_and_routeId_wellformed.2.1 noTokenMatcher
     [rawStopX] _
     (by
       rw [show TomTomTransitService.mapStops noTokenMatcher [rawStopX] =
           [{ id := "tomtom_0", lat := 1, lon := 2, name := "Gare Centrale"
              routes := ["L1", "L2"] }] from rfl]
       exact List.mem_singleton.mpr rfl),
   extractRoutes_nonempty_and_routeId_wellformed.2.2 ttLegOracle
     [accTTA] [accTTB] candAB
     (by
       rw [show RouteOptimizer.buildDirectRoutes ttLegOracle
           [accTTA] [accTTB] = [candAB] from rfl]
       exact List.mem_singleton.mpr rfl)
     (by simp [candAB, accTTA, stopA]) (by simp [candAB, accTTB, stopB])⟩

end TrafficOptimizer
